import Mathlib

/-!
Verification development for the Prometheus micro-wrapper (prometheus.go).

The Go source decorates five call shapes (client Call / Stream / Publish,
server handler, server subscriber, plus the low-level CallFunc) with
Prometheus counters, summaries and histograms, and lazily registers four
groups of metric families under a single mutex.

Shallow embedding conventions:
* The package-level metric-vector globals and the default registerer become
  an explicit `GlobalState` threaded through the registration functions.
  Each registration function holds the mutex for its whole body in the Go
  source, so it is modelled as one atomic state transition; it additionally
  reports the list of family names it constructed during the call (the
  NewCounterVec / NewSummaryVec / NewHistogramVec invocations), which is the
  observable the single-construction properties talk about.
* `logger.Fatal` terminates the process, modelled as `Except.error`.
* Metric observations (`Inc`, `Observe`) are side effects on external vector
  objects; a decorated call returns its Go result together with the list of
  `MetricEvent`s it emitted, in emission order (the deferred timer fires
  after the counter increment).
* Go `float64` durations are modelled as rationals, so the microsecond
  conversion `us := v * 1000000` is exact.
* Opaque foreign types (response slot, call options, stream handle, error)
  are modelled by simple inhabited types; the decorators only forward them.
-/

/-- Go context.Context, abstract: the background context or any other
context value (the code only stores and forwards contexts). -/
inductive GoContext
  | background
  | custom (n : Nat)
deriving DecidableEq, Repr

/-- default metric prefix (Go: DefaultMetricPrefix = "micro_"). -/
def DefaultMetricPrefix : String := "micro_"

/-- default label prefix (Go: DefaultLabelPrefix = "micro_"). -/
def DefaultLabelPrefix : String := "micro_"

/-- Which Prometheus vector type a family is (CounterVec / SummaryVec /
HistogramVec). -/
inductive CollectorKind
  | counter
  | summary
  | histogram
deriving DecidableEq, Repr

/-- A Prometheus collector as far as this package observes it: its vector
kind, fully qualified name, help string and ordered label names. -/
structure Collector where
  kind : CollectorKind
  name : String
  help : String
  labelNames : List String
deriving DecidableEq, Repr

/-- The four shared label names, in the order the source lists them. -/
def labelNames4 : List String :=
  [ DefaultLabelPrefix ++ "name", DefaultLabelPrefix ++ "version",
    DefaultLabelPrefix ++ "id", DefaultLabelPrefix ++ "endpoint" ]

/-- Ops counters additionally carry the status label, last. -/
def labelNames5 : List String :=
  labelNames4 ++ [ DefaultLabelPrefix ++ "status" ]

/-- Collector built for the clientOpsCounter global (registerClientMetrics). -/
def clientOpsCounterDef : Collector :=
  { kind := CollectorKind.counter
    name := DefaultMetricPrefix ++ "request_total"
    help := "Requests processed, partitioned by endpoint and status"
    labelNames := labelNames5 }

/-- Collector built for the clientTimeCounterSummary global. -/
def clientTimeCounterSummaryDef : Collector :=
  { kind := CollectorKind.summary
    name := DefaultMetricPrefix ++ "latency_microseconds"
    help := "Request latencies in microseconds, partitioned by endpoint"
    labelNames := labelNames4 }

/-- Collector built for the clientTimeCounterHistogram global. -/
def clientTimeCounterHistogramDef : Collector :=
  { kind := CollectorKind.histogram
    name := DefaultMetricPrefix ++ "request_duration_seconds"
    help := "Request time in seconds, partitioned by endpoint"
    labelNames := labelNames4 }

/-- Collector built for the serverOpsCounter global (registerServerMetrics). -/
def serverOpsCounterDef : Collector :=
  { kind := CollectorKind.counter
    name := DefaultMetricPrefix ++ "server_request_total"
    help := "Requests processed, partitioned by endpoint and status"
    labelNames := labelNames5 }

/-- Collector built for the serverTimeCounterSummary global. -/
def serverTimeCounterSummaryDef : Collector :=
  { kind := CollectorKind.summary
    name := DefaultMetricPrefix ++ "server_latency_microseconds"
    help := "Request latencies in microseconds, partitioned by endpoint"
    labelNames := labelNames4 }

/-- Collector built for the serverTimeCounterHistogram global. -/
def serverTimeCounterHistogramDef : Collector :=
  { kind := CollectorKind.histogram
    name := DefaultMetricPrefix ++ "server_request_duration_seconds"
    help := "Request time in seconds, partitioned by endpoint"
    labelNames := labelNames4 }

/-- Collector built for the publishOpsCounter global (registerPublishMetrics). -/
def publishOpsCounterDef : Collector :=
  { kind := CollectorKind.counter
    name := DefaultMetricPrefix ++ "publish_message_total"
    help := "Messages sent, partitioned by endpoint and status"
    labelNames := labelNames5 }

/-- Collector built for the publishTimeCounterSummary global. -/
def publishTimeCounterSummaryDef : Collector :=
  { kind := CollectorKind.summary
    name := DefaultMetricPrefix ++ "publish_message_latency_microseconds"
    help := "Message latencies in microseconds, partitioned by endpoint"
    labelNames := labelNames4 }

/-- Collector built for the publishTimeCounterHistogram global. -/
def publishTimeCounterHistogramDef : Collector :=
  { kind := CollectorKind.histogram
    name := DefaultMetricPrefix ++ "publish_message_duration_seconds"
    help := "Message publish time in seconds, partitioned by endpoint"
    labelNames := labelNames4 }

/-- Collector built for the subscribeOpsCounter global
(registerSubscribeMetrics). -/
def subscribeOpsCounterDef : Collector :=
  { kind := CollectorKind.counter
    name := DefaultMetricPrefix ++ "subscribe_message_total"
    help := "Messages processed, partitioned by endpoint and status"
    labelNames := labelNames5 }

/-- Collector built for the subscribeTimeCounterSummary global. -/
def subscribeTimeCounterSummaryDef : Collector :=
  { kind := CollectorKind.summary
    name := DefaultMetricPrefix ++ "subscribe_message_latency_microseconds"
    help := "Message processing latencies in microseconds, partitioned by endpoint"
    labelNames := labelNames4 }

/-- Collector built for the subscribeTimeCounterHistogram global. -/
def subscribeTimeCounterHistogramDef : Collector :=
  { kind := CollectorKind.histogram
    name := DefaultMetricPrefix ++ "subscribe_message_duration_seconds"
    help := "Request time in seconds, partitioned by endpoint"
    labelNames := labelNames4 }

/-- The twelve package-level metric-vector globals of prometheus.go, each
nil (none) until its register function first constructs it. -/
structure Families where
  clientOpsCounter : Option Collector
  clientTimeCounterSummary : Option Collector
  clientTimeCounterHistogram : Option Collector
  serverOpsCounter : Option Collector
  serverTimeCounterSummary : Option Collector
  serverTimeCounterHistogram : Option Collector
  publishOpsCounter : Option Collector
  publishTimeCounterSummary : Option Collector
  publishTimeCounterHistogram : Option Collector
  subscribeOpsCounter : Option Collector
  subscribeTimeCounterSummary : Option Collector
  subscribeTimeCounterHistogram : Option Collector
deriving DecidableEq, Repr

/-- All globals nil: the state at process start. -/
def emptyFamilies : Families :=
  { clientOpsCounter := none
    clientTimeCounterSummary := none
    clientTimeCounterHistogram := none
    serverOpsCounter := none
    serverTimeCounterSummary := none
    serverTimeCounterHistogram := none
    publishOpsCounter := none
    publishTimeCounterSummary := none
    publishTimeCounterHistogram := none
    subscribeOpsCounter := none
    subscribeTimeCounterSummary := none
    subscribeTimeCounterHistogram := none }

/-- Result of prometheus.DefaultRegisterer.Register for one collector. -/
inductive RegisterResult
  | ok
  | alreadyRegistered
  | otherError (msg : String)
deriving DecidableEq, Repr

/-- The shared global state: the metric-vector globals plus the default
registerer's collector list. -/
structure GlobalState where
  families : Families
  registry : List Collector
deriving DecidableEq, Repr

/-- The state at process start: no globals constructed, nothing registered. -/
def emptyState : GlobalState :=
  { families := emptyFamilies, registry := [] }

/-- Model of prometheus.DefaultRegisterer.Register: registering an identical
collector again yields AlreadyRegisteredError and leaves the registry
unchanged; a different collector whose name collides is any other
registration error; otherwise the collector is added and registration
succeeds. -/
def Register (r : List Collector) (c : Collector) :
    List Collector × RegisterResult :=
  if c ∈ r then (r, RegisterResult.alreadyRegistered)
  else if ∃ c2 ∈ r, c2.name = c.name then
    (r, RegisterResult.otherError "duplicate metrics collector registration attempted")
  else (r ++ [c], RegisterResult.ok)

/-- The register loop shared by the four register functions: register each
collector; an AlreadyRegisteredError is skipped (execution continues), any
other error is logger.Fatal, which terminates the process (Except.error). -/
def registerCollectors (ctx : GoContext) :
    List Collector → List Collector → Except String (List Collector)
  | r, [] => Except.ok r
  | r, c :: rest =>
    match Register r c with
    | (_, RegisterResult.otherError msg) => Except.error msg
    | (r2, RegisterResult.ok) => registerCollectors ctx r2 rest
    | (r2, RegisterResult.alreadyRegistered) => registerCollectors ctx r2 rest

/-- The if-nil-construct step shared by every family slot in the register
functions: when the global is nil, construct the canonical collector and
report its name as constructed; otherwise keep the existing object. -/
def ensure (cur : Option Collector) (fam : Collector) : Collector × List String :=
  match cur with
  | none => (fam, [fam.name])
  | some c => (c, [])

/-- Embedding of registerClientMetrics: under the mutex, construct each nil
client family, then register all three, treating AlreadyRegisteredError as
success and any other error as fatal. Returns the new global state and the
names of the families constructed during this call. -/
def registerClientMetrics (ctx : GoContext) (s : GlobalState) :
    Except String (GlobalState × List String) :=
  let e1 := ensure s.families.clientOpsCounter clientOpsCounterDef
  let e2 := ensure s.families.clientTimeCounterSummary clientTimeCounterSummaryDef
  let e3 := ensure s.families.clientTimeCounterHistogram clientTimeCounterHistogramDef
  match registerCollectors ctx s.registry [e1.1, e2.1, e3.1] with
  | Except.error e => Except.error e
  | Except.ok r2 =>
    Except.ok
      ({ families := { s.families with
            clientOpsCounter := some e1.1
            clientTimeCounterSummary := some e2.1
            clientTimeCounterHistogram := some e3.1 }
         registry := r2 }, e1.2 ++ e2.2 ++ e3.2)

/-- Embedding of registerServerMetrics, as registerClientMetrics but for the
server families. -/
def registerServerMetrics (ctx : GoContext) (s : GlobalState) :
    Except String (GlobalState × List String) :=
  let e1 := ensure s.families.serverOpsCounter serverOpsCounterDef
  let e2 := ensure s.families.serverTimeCounterSummary serverTimeCounterSummaryDef
  let e3 := ensure s.families.serverTimeCounterHistogram serverTimeCounterHistogramDef
  match registerCollectors ctx s.registry [e1.1, e2.1, e3.1] with
  | Except.error e => Except.error e
  | Except.ok r2 =>
    Except.ok
      ({ families := { s.families with
            serverOpsCounter := some e1.1
            serverTimeCounterSummary := some e2.1
            serverTimeCounterHistogram := some e3.1 }
         registry := r2 }, e1.2 ++ e2.2 ++ e3.2)

/-- Embedding of registerPublishMetrics. -/
def registerPublishMetrics (ctx : GoContext) (s : GlobalState) :
    Except String (GlobalState × List String) :=
  let e1 := ensure s.families.publishOpsCounter publishOpsCounterDef
  let e2 := ensure s.families.publishTimeCounterSummary publishTimeCounterSummaryDef
  let e3 := ensure s.families.publishTimeCounterHistogram publishTimeCounterHistogramDef
  match registerCollectors ctx s.registry [e1.1, e2.1, e3.1] with
  | Except.error e => Except.error e
  | Except.ok r2 =>
    Except.ok
      ({ families := { s.families with
            publishOpsCounter := some e1.1
            publishTimeCounterSummary := some e2.1
            publishTimeCounterHistogram := some e3.1 }
         registry := r2 }, e1.2 ++ e2.2 ++ e3.2)

/-- Embedding of registerSubscribeMetrics. -/
def registerSubscribeMetrics (ctx : GoContext) (s : GlobalState) :
    Except String (GlobalState × List String) :=
  let e1 := ensure s.families.subscribeOpsCounter subscribeOpsCounterDef
  let e2 := ensure s.families.subscribeTimeCounterSummary subscribeTimeCounterSummaryDef
  let e3 := ensure s.families.subscribeTimeCounterHistogram subscribeTimeCounterHistogramDef
  match registerCollectors ctx s.registry [e1.1, e2.1, e3.1] with
  | Except.error e => Except.error e
  | Except.ok r2 =>
    Except.ok
      ({ families := { s.families with
            subscribeOpsCounter := some e1.1
            subscribeTimeCounterSummary := some e2.1
            subscribeTimeCounterHistogram := some e3.1 }
         registry := r2 }, e1.2 ++ e2.2 ++ e3.2)

/-- The Options struct: service identity plus an execution context. -/
structure Options where
  Name : String
  Version : String
  ID : String
  Context : GoContext
deriving DecidableEq, Repr

/-- The Go type Option = func(o Options); named Opt because Lean reserves
the name Option. -/
abbrev Opt := Options → Options

/-- Option setter Context(ctx). -/
def Context (ctx : GoContext) : Opt := fun o => { o with Context := ctx }

/-- Option setter ServiceName(name). -/
def ServiceName (name : String) : Opt := fun o => { o with Name := name }

/-- Option setter ServiceVersion(version). -/
def ServiceVersion (version : String) : Opt := fun o => { o with Version := version }

/-- Option setter ServiceID(id). -/
def ServiceID (id : String) : Opt := fun o => { o with ID := id }

/-- The constructor prologue shared verbatim by all four New*Wrapper
functions: options := Options{Context: context.Background()} (string fields
zero-valued), then each option is applied in order. -/
def newOptions (opts : List Opt) : Options :=
  opts.foldl (fun o f => f o)
    { Name := "", Version := "", ID := "", Context := GoContext.background }

/-- client.Request as this package observes it: Service() and Endpoint(). -/
structure Request where
  Service : String
  Endpoint : String
deriving DecidableEq, Repr

/-- client.Message as this package observes it: Topic(). -/
structure Message where
  Topic : String
deriving DecidableEq, Repr

/-- server.Request as this package observes it: Endpoint(). -/
structure ServerRequest where
  Endpoint : String
deriving DecidableEq, Repr

/-- server.Message as this package observes it: Topic(). -/
structure ServerMessage where
  Topic : String
deriving DecidableEq, Repr

/-- A Go error value; nil is modelled as none, a non-nil error by its
message. -/
abbrev GoError := String

/-- The opaque response slot (Go: rsp any). -/
abbrev Rsp := Nat

/-- An opaque client.CallOption. -/
abbrev CallOption := Nat

/-- An opaque client.CallOptions struct (CallFunc takes it by value). -/
abbrev CallOptions := Nat

/-- An opaque client.PublishOption. -/
abbrev PublishOption := Nat

/-- An opaque client.Stream handle. -/
abbrev StreamHandle := Nat

/-- The underlying client.Client capabilities the wrapper forwards to. -/
structure Client where
  Call : GoContext → Request → Rsp → List CallOption → Option GoError
  Stream : GoContext → Request → List CallOption →
    Option StreamHandle × Option GoError
  Publish : GoContext → Message → List PublishOption → Option GoError

instance : Inhabited Client :=
  ⟨{ Call := fun _ _ _ _ => none
     Stream := fun _ _ _ => (none, none)
     Publish := fun _ _ _ => none }⟩

/-- client.CallFunc: (ctx, addr, req, rsp, opts) to error. -/
abbrev CallFunc :=
  GoContext → String → Request → Rsp → CallOptions → Option GoError

/-- server.HandlerFunc: (ctx, req, rsp) to error. -/
abbrev HandlerFunc := GoContext → ServerRequest → Rsp → Option GoError

/-- server.SubscriberFunc: (ctx, msg) to error. -/
abbrev SubscriberFunc := GoContext → ServerMessage → Option GoError

/-- The wrapper struct: captured options, an optional wrapped CallFunc and
an embedded wrapped Client. Fields a given constructor leaves at their Go
zero value are modelled by `default`. -/
structure wrapper where
  options : Options
  callFunc : CallFunc
  client : Client

/-- One metric side effect: a counter increment or a summary/histogram
observation, on the family with the given name, at the given ordered label
values. Values are rationals standing for Go float64s. -/
inductive MetricEvent
  | inc (family : String) (labelValues : List String)
  | observe (family : String) (labelValues : List String) (value : ℚ)
deriving DecidableEq, Repr

/-- wrapper.CallFunc: derive the endpoint as service.endpoint, run the
wrapped CallFunc, increment the client ops counter with the status label,
and let the deferred timer observe the elapsed seconds into the summary
(scaled to microseconds) and the histogram (seconds); `elapsed` is the
seconds the prometheus timer measures. Returns the forwarded error and the
emitted metric events in order. -/
def wrapper.CallFunc (w : wrapper) (ctx : GoContext) (addr : String)
    (req : Request) (rsp : Rsp) (opts : CallOptions) (elapsed : ℚ) :
    Option GoError × List MetricEvent :=
  let endpoint := req.Service ++ "." ++ req.Endpoint
  let err := w.callFunc ctx addr req rsp opts
  let opsEvent :=
    match err with
    | none => MetricEvent.inc clientOpsCounterDef.name
        [w.options.Name, w.options.Version, w.options.ID, endpoint, "success"]
    | some _ => MetricEvent.inc clientOpsCounterDef.name
        [w.options.Name, w.options.Version, w.options.ID, endpoint, "failure"]
  (err,
    [ opsEvent,
      MetricEvent.observe clientTimeCounterSummaryDef.name
        [w.options.Name, w.options.Version, w.options.ID, endpoint]
        (elapsed * 1000000),
      MetricEvent.observe clientTimeCounterHistogramDef.name
        [w.options.Name, w.options.Version, w.options.ID, endpoint] elapsed ])

/-- wrapper.Call: as wrapper.CallFunc but invoking the embedded client's
Call. -/
def wrapper.Call (w : wrapper) (ctx : GoContext) (req : Request) (rsp : Rsp)
    (opts : List CallOption) (elapsed : ℚ) :
    Option GoError × List MetricEvent :=
  let endpoint := req.Service ++ "." ++ req.Endpoint
  let err := w.client.Call ctx req rsp opts
  let opsEvent :=
    match err with
    | none => MetricEvent.inc clientOpsCounterDef.name
        [w.options.Name, w.options.Version, w.options.ID, endpoint, "success"]
    | some _ => MetricEvent.inc clientOpsCounterDef.name
        [w.options.Name, w.options.Version, w.options.ID, endpoint, "failure"]
  (err,
    [ opsEvent,
      MetricEvent.observe clientTimeCounterSummaryDef.name
        [w.options.Name, w.options.Version, w.options.ID, endpoint]
        (elapsed * 1000000),
      MetricEvent.observe clientTimeCounterHistogramDef.name
        [w.options.Name, w.options.Version, w.options.ID, endpoint] elapsed ])

/-- wrapper.Stream: invoke the embedded client's Stream, count by whether
its error is nil, record latency in the client group, and forward the
(stream, error) pair unchanged. -/
def wrapper.Stream (w : wrapper) (ctx : GoContext) (req : Request)
    (opts : List CallOption) (elapsed : ℚ) :
    (Option StreamHandle × Option GoError) × List MetricEvent :=
  let endpoint := req.Service ++ "." ++ req.Endpoint
  let res := w.client.Stream ctx req opts
  let opsEvent :=
    match res.2 with
    | none => MetricEvent.inc clientOpsCounterDef.name
        [w.options.Name, w.options.Version, w.options.ID, endpoint, "success"]
    | some _ => MetricEvent.inc clientOpsCounterDef.name
        [w.options.Name, w.options.Version, w.options.ID, endpoint, "failure"]
  (res,
    [ opsEvent,
      MetricEvent.observe clientTimeCounterSummaryDef.name
        [w.options.Name, w.options.Version, w.options.ID, endpoint]
        (elapsed * 1000000),
      MetricEvent.observe clientTimeCounterHistogramDef.name
        [w.options.Name, w.options.Version, w.options.ID, endpoint] elapsed ])

/-- wrapper.Publish: endpoint is the outgoing message's topic; counts and
latencies go to the publish group. -/
def wrapper.Publish (w : wrapper) (ctx : GoContext) (p : Message)
    (opts : List PublishOption) (elapsed : ℚ) :
    Option GoError × List MetricEvent :=
  let endpoint := p.Topic
  let err := w.client.Publish ctx p opts
  let opsEvent :=
    match err with
    | none => MetricEvent.inc publishOpsCounterDef.name
        [w.options.Name, w.options.Version, w.options.ID, endpoint, "success"]
    | some _ => MetricEvent.inc publishOpsCounterDef.name
        [w.options.Name, w.options.Version, w.options.ID, endpoint, "failure"]
  (err,
    [ opsEvent,
      MetricEvent.observe publishTimeCounterSummaryDef.name
        [w.options.Name, w.options.Version, w.options.ID, endpoint]
        (elapsed * 1000000),
      MetricEvent.observe publishTimeCounterHistogramDef.name
        [w.options.Name, w.options.Version, w.options.ID, endpoint] elapsed ])

/-- wrapper.HandlerFunc: decorates a server HandlerFunc; endpoint is the
inbound request's endpoint name; counts and latencies go to the server
group. -/
def wrapper.HandlerFunc (w : wrapper) (fn : HandlerFunc) (ctx : GoContext)
    (req : ServerRequest) (rsp : Rsp) (elapsed : ℚ) :
    Option GoError × List MetricEvent :=
  let endpoint := req.Endpoint
  let err := fn ctx req rsp
  let opsEvent :=
    match err with
    | none => MetricEvent.inc serverOpsCounterDef.name
        [w.options.Name, w.options.Version, w.options.ID, endpoint, "success"]
    | some _ => MetricEvent.inc serverOpsCounterDef.name
        [w.options.Name, w.options.Version, w.options.ID, endpoint, "failure"]
  (err,
    [ opsEvent,
      MetricEvent.observe serverTimeCounterSummaryDef.name
        [w.options.Name, w.options.Version, w.options.ID, endpoint]
        (elapsed * 1000000),
      MetricEvent.observe serverTimeCounterHistogramDef.name
        [w.options.Name, w.options.Version, w.options.ID, endpoint] elapsed ])

/-- wrapper.SubscriberFunc: decorates a server SubscriberFunc; endpoint is
the incoming message's topic; counts and latencies go to the subscribe
group. -/
def wrapper.SubscriberFunc (w : wrapper) (fn : SubscriberFunc)
    (ctx : GoContext) (msg : ServerMessage) (elapsed : ℚ) :
    Option GoError × List MetricEvent :=
  let endpoint := msg.Topic
  let err := fn ctx msg
  let opsEvent :=
    match err with
    | none => MetricEvent.inc subscribeOpsCounterDef.name
        [w.options.Name, w.options.Version, w.options.ID, endpoint, "success"]
    | some _ => MetricEvent.inc subscribeOpsCounterDef.name
        [w.options.Name, w.options.Version, w.options.ID, endpoint, "failure"]
  (err,
    [ opsEvent,
      MetricEvent.observe subscribeTimeCounterSummaryDef.name
        [w.options.Name, w.options.Version, w.options.ID, endpoint]
        (elapsed * 1000000),
      MetricEvent.observe subscribeTimeCounterHistogramDef.name
        [w.options.Name, w.options.Version, w.options.ID, endpoint] elapsed ])

/-- NewClientWrapper: apply the options, register the client and then the
publish metric families, and return the client decorator capturing the
resolved options by value. A fatal registration error terminates the
process (Except.error). -/
def NewClientWrapper (opts : List Opt) (s : GlobalState) :
    Except String (GlobalState × (Client → wrapper)) :=
  let options := newOptions opts
  match registerClientMetrics options.Context s with
  | Except.error e => Except.error e
  | Except.ok (s1, _) =>
    match registerPublishMetrics options.Context s1 with
    | Except.error e => Except.error e
    | Except.ok (s2, _) =>
      Except.ok (s2, fun c =>
        { options := options, callFunc := default, client := c })

/-- NewCallWrapper: apply the options, register only the client metric
families, and return the CallFunc decorator capturing the resolved options
by value (Go returns handler.CallFunc; the model returns the handler
itself, whose CallFunc method is the decorated function). -/
def NewCallWrapper (opts : List Opt) (s : GlobalState) :
    Except String (GlobalState × (CallFunc → wrapper)) :=
  let options := newOptions opts
  match registerClientMetrics options.Context s with
  | Except.error e => Except.error e
  | Except.ok (s1, _) =>
    Except.ok (s1, fun fn =>
      { options := options, callFunc := fn, client := default })

/-- NewHandlerWrapper: apply the options, register the server metric
families, and return the handler wrapper (Go returns handler.HandlerFunc;
the model returns the handler itself, whose HandlerFunc method is the
decorator). -/
def NewHandlerWrapper (opts : List Opt) (s : GlobalState) :
    Except String (GlobalState × wrapper) :=
  let options := newOptions opts
  match registerServerMetrics options.Context s with
  | Except.error e => Except.error e
  | Except.ok (s1, _) =>
    Except.ok (s1, { options := options, callFunc := default, client := default })

/-- NewSubscriberWrapper: apply the options, register the subscribe metric
families, and return the subscriber wrapper (Go returns
handler.SubscriberFunc; the model returns the handler itself, whose
SubscriberFunc method is the decorator). -/
def NewSubscriberWrapper (opts : List Opt) (s : GlobalState) :
    Except String (GlobalState × wrapper) :=
  let options := newOptions opts
  match registerSubscribeMetrics options.Context s with
  | Except.error e => Except.error e
  | Except.ok (s1, _) =>
    Except.ok (s1, { options := options, callFunc := default, client := default })

/-- The status label derived from the wrapped call's error, as computed by
the if err == nil branches of every decorated shape. -/
def statusLabel (err : Option GoError) : String :=
  match err with
  | none => "success"
  | some _ => "failure"

/-- The counter increments among a list of metric events. -/
def incEvents (evts : List MetricEvent) : List MetricEvent :=
  evts.filter fun e =>
    match e with
    | MetricEvent.inc _ _ => true
    | _ => false

/-- The label tuples of the observations recorded on the family with the
given name. -/
def observesWithLabels (fam : String) (evts : List MetricEvent) :
    List (List String) :=
  evts.filterMap fun e =>
    match e with
    | MetricEvent.observe f ls _ => if f = fam then some ls else none
    | _ => none

/-- The values of the observations recorded on the family with the given
name. -/
def observeValues (fam : String) (evts : List MetricEvent) : List ℚ :=
  evts.filterMap fun e =>
    match e with
    | MetricEvent.observe f _ v => if f = fam then some v else none
    | _ => none

/-- The endpoint label value an event carries (position 3 of the ordered
label values, after name, version, id). -/
def eventEndpoint (e : MetricEvent) : Option String :=
  match e with
  | MetricEvent.inc _ ls => ls[3]?
  | MetricEvent.observe _ ls _ => ls[3]?

/-- The global state after the first registerClientMetrics call at process
start. -/
def clientState1 : GlobalState :=
  { families := { emptyFamilies with
      clientOpsCounter := some clientOpsCounterDef
      clientTimeCounterSummary := some clientTimeCounterSummaryDef
      clientTimeCounterHistogram := some clientTimeCounterHistogramDef }
    registry := [clientOpsCounterDef, clientTimeCounterSummaryDef,
      clientTimeCounterHistogramDef] }

/-- The global state after the first registerServerMetrics call at process
start. -/
def serverState1 : GlobalState :=
  { families := { emptyFamilies with
      serverOpsCounter := some serverOpsCounterDef
      serverTimeCounterSummary := some serverTimeCounterSummaryDef
      serverTimeCounterHistogram := some serverTimeCounterHistogramDef }
    registry := [serverOpsCounterDef, serverTimeCounterSummaryDef,
      serverTimeCounterHistogramDef] }

/-- The mutex / initialization steps a registration function may perform,
for comparing the code's locking discipline with locking disciplines the
spec describes. -/
inductive LockStep
  | lock
  | checkNull
  | construct
  | registerStep
  | unlock
deriving DecidableEq, Repr

/-- The sequence of locking and initialization steps of
registerServerMetrics exactly as the source orders them: mu.Lock(), then
(under the lock) one nil check and construction per family slot, the
register loop, and the deferred mu.Unlock(). No step precedes the lock. -/
def registerServerMetricsLockSteps : List LockStep :=
  [ LockStep.lock,
    LockStep.checkNull, LockStep.construct,
    LockStep.checkNull, LockStep.construct,
    LockStep.checkNull, LockStep.construct,
    LockStep.registerStep,
    LockStep.unlock ]

/-- Modelled from the spec: the double-checked locking step sequence the
spec claims the code uses (check-null, lock, check-null-again, construct,
unlock), whose first step is a null check outside the lock. -/
def doubleCheckedLockingSteps : List LockStep :=
  [ LockStep.checkNull, LockStep.lock, LockStep.checkNull,
    LockStep.construct, LockStep.unlock ]

/-- Sequential composition of n registration calls: because each call holds
the mutex for its entire body, any concurrent schedule of n calls executes
as some such sequence. Collects the constructed family names of all calls. -/
def iterateRegisterServer : Nat → GlobalState → Except String (GlobalState × List String)
  | 0, s => Except.ok (s, [])
  | n + 1, s =>
    match registerServerMetrics GoContext.background s with
    | Except.error e => Except.error e
    | Except.ok (s2, cs) =>
      match iterateRegisterServer n s2 with
      | Except.error e => Except.error e
      | Except.ok (s3, cs2) => Except.ok (s3, cs ++ cs2)

/-- Registering a collector already present skips it (AlreadyRegisteredError
is not fatal) and continues with the rest. -/
theorem registerCollectors_skip (ctx : GoContext) (r : List Collector)
    (c : Collector) (rest : List Collector) (h : c ∈ r) :
    registerCollectors ctx r (c :: rest) = registerCollectors ctx r rest := by
  simp [registerCollectors, Register, h]

/-- The registry only grows along a successful register loop. -/
theorem registerCollectors_mono (ctx : GoContext) (cs : List Collector) :
    ∀ r r' : List Collector, registerCollectors ctx r cs = Except.ok r' →
      ∀ a ∈ r, a ∈ r' := by
  induction cs with
  | nil =>
    intro r r' h a ha
    simp only [registerCollectors, Except.ok.injEq] at h
    exact h ▸ ha
  | cons c rest ih =>
    intro r r' h a ha
    by_cases hc : c ∈ r
    · rw [registerCollectors_skip ctx r c rest hc] at h
      exact ih r r' h a ha
    · by_cases hn : ∃ c2 ∈ r, c2.name = c.name
      · simp [registerCollectors, Register, hc, hn] at h
      · have hstep : registerCollectors ctx r (c :: rest) =
            registerCollectors ctx (r ++ [c]) rest := by
          simp [registerCollectors, Register, hc, hn]
        rw [hstep] at h
        exact ih (r ++ [c]) r' h a (List.mem_append_left _ ha)

/-- After a successful register loop every requested collector is in the
registry. -/
theorem registerCollectors_mem_out (ctx : GoContext) (cs : List Collector) :
    ∀ r r' : List Collector, registerCollectors ctx r cs = Except.ok r' →
      ∀ a ∈ cs, a ∈ r' := by
  induction cs with
  | nil =>
    intro r r' _ a ha
    simp at ha
  | cons c rest ih =>
    intro r r' h a ha
    by_cases hc : c ∈ r
    · rw [registerCollectors_skip ctx r c rest hc] at h
      rcases List.mem_cons.mp ha with rfl | ha2
      · exact registerCollectors_mono ctx rest r r' h a hc
      · exact ih r r' h a ha2
    · by_cases hn : ∃ c2 ∈ r, c2.name = c.name
      · simp [registerCollectors, Register, hc, hn] at h
      · have hstep : registerCollectors ctx r (c :: rest) =
            registerCollectors ctx (r ++ [c]) rest := by
          simp [registerCollectors, Register, hc, hn]
        rw [hstep] at h
        rcases List.mem_cons.mp ha with rfl | ha2
        · exact registerCollectors_mono ctx rest (r ++ [a]) r' h a
            (List.mem_append_right _ (List.mem_singleton.mpr rfl))
        · exact ih (r ++ [c]) r' h a ha2

/-- A register loop whose collectors are all already registered succeeds
and leaves the registry unchanged. -/
theorem registerCollectors_all_mem (ctx : GoContext) (cs : List Collector) :
    ∀ r : List Collector, (∀ a ∈ cs, a ∈ r) →
      registerCollectors ctx r cs = Except.ok r := by
  induction cs with
  | nil => intro r _; rfl
  | cons c rest ih =>
    intro r hall
    rw [registerCollectors_skip ctx r c rest (hall c (List.mem_cons_self c rest))]
    exact ih r fun a ha => hall a (List.mem_cons_of_mem c ha)

/-- What a successful registerClientMetrics call did: it ran the register
loop on the three (existing-or-fresh) client collectors, set the three
client globals to them, and touched nothing else. -/
theorem registerClientMetrics_spec (ctx : GoContext) (s s' : GlobalState)
    (t : List String)
    (h : registerClientMetrics ctx s = Except.ok (s', t)) :
    registerCollectors ctx s.registry
        [ (ensure s.families.clientOpsCounter clientOpsCounterDef).1,
          (ensure s.families.clientTimeCounterSummary clientTimeCounterSummaryDef).1,
          (ensure s.families.clientTimeCounterHistogram clientTimeCounterHistogramDef).1 ] =
      Except.ok s'.registry ∧
    s'.families = { s.families with
      clientOpsCounter :=
        some (ensure s.families.clientOpsCounter clientOpsCounterDef).1
      clientTimeCounterSummary :=
        some (ensure s.families.clientTimeCounterSummary clientTimeCounterSummaryDef).1
      clientTimeCounterHistogram :=
        some (ensure s.families.clientTimeCounterHistogram clientTimeCounterHistogramDef).1 } := by
  simp only [registerClientMetrics] at h
  cases hrc : registerCollectors ctx s.registry
      [ (ensure s.families.clientOpsCounter clientOpsCounterDef).1,
        (ensure s.families.clientTimeCounterSummary clientTimeCounterSummaryDef).1,
        (ensure s.families.clientTimeCounterHistogram clientTimeCounterHistogramDef).1 ] with
  | error e =>
    rw [hrc] at h
    exact absurd h (by simp)
  | ok r2 =>
    rw [hrc] at h
    simp only [Except.ok.injEq, Prod.mk.injEq] at h
    obtain ⟨hstate, _⟩ := h
    subst hstate
    exact ⟨rfl, rfl⟩

/-- The server-group analogue of registerClientMetrics_spec. -/
theorem registerServerMetrics_spec (ctx : GoContext) (s s' : GlobalState)
    (t : List String)
    (h : registerServerMetrics ctx s = Except.ok (s', t)) :
    registerCollectors ctx s.registry
        [ (ensure s.families.serverOpsCounter serverOpsCounterDef).1,
          (ensure s.families.serverTimeCounterSummary serverTimeCounterSummaryDef).1,
          (ensure s.families.serverTimeCounterHistogram serverTimeCounterHistogramDef).1 ] =
      Except.ok s'.registry ∧
    s'.families = { s.families with
      serverOpsCounter :=
        some (ensure s.families.serverOpsCounter serverOpsCounterDef).1
      serverTimeCounterSummary :=
        some (ensure s.families.serverTimeCounterSummary serverTimeCounterSummaryDef).1
      serverTimeCounterHistogram :=
        some (ensure s.families.serverTimeCounterHistogram serverTimeCounterHistogramDef).1 } := by
  simp only [registerServerMetrics] at h
  cases hrc : registerCollectors ctx s.registry
      [ (ensure s.families.serverOpsCounter serverOpsCounterDef).1,
        (ensure s.families.serverTimeCounterSummary serverTimeCounterSummaryDef).1,
        (ensure s.families.serverTimeCounterHistogram serverTimeCounterHistogramDef).1 ] with
  | error e =>
    rw [hrc] at h
    exact absurd h (by simp)
  | ok r2 =>
    rw [hrc] at h
    simp only [Except.ok.injEq, Prod.mk.injEq] at h
    obtain ⟨hstate, _⟩ := h
    subst hstate
    exact ⟨rfl, rfl⟩

/-- The publish-group analogue of registerClientMetrics_spec. -/
theorem registerPublishMetrics_spec (ctx : GoContext) (s s' : GlobalState)
    (t : List String)
    (h : registerPublishMetrics ctx s = Except.ok (s', t)) :
    registerCollectors ctx s.registry
        [ (ensure s.families.publishOpsCounter publishOpsCounterDef).1,
          (ensure s.families.publishTimeCounterSummary publishTimeCounterSummaryDef).1,
          (ensure s.families.publishTimeCounterHistogram publishTimeCounterHistogramDef).1 ] =
      Except.ok s'.registry ∧
    s'.families = { s.families with
      publishOpsCounter :=
        some (ensure s.families.publishOpsCounter publishOpsCounterDef).1
      publishTimeCounterSummary :=
        some (ensure s.families.publishTimeCounterSummary publishTimeCounterSummaryDef).1
      publishTimeCounterHistogram :=
        some (ensure s.families.publishTimeCounterHistogram publishTimeCounterHistogramDef).1 } := by
  simp only [registerPublishMetrics] at h
  cases hrc : registerCollectors ctx s.registry
      [ (ensure s.families.publishOpsCounter publishOpsCounterDef).1,
        (ensure s.families.publishTimeCounterSummary publishTimeCounterSummaryDef).1,
        (ensure s.families.publishTimeCounterHistogram publishTimeCounterHistogramDef).1 ] with
  | error e =>
    rw [hrc] at h
    exact absurd h (by simp)
  | ok r2 =>
    rw [hrc] at h
    simp only [Except.ok.injEq, Prod.mk.injEq] at h
    obtain ⟨hstate, _⟩ := h
    subst hstate
    exact ⟨rfl, rfl⟩

/-- The subscribe-group analogue of registerClientMetrics_spec. -/
theorem registerSubscribeMetrics_spec (ctx : GoContext) (s s' : GlobalState)
    (t : List String)
    (h : registerSubscribeMetrics ctx s = Except.ok (s', t)) :
    registerCollectors ctx s.registry
        [ (ensure s.families.subscribeOpsCounter subscribeOpsCounterDef).1,
          (ensure s.families.subscribeTimeCounterSummary subscribeTimeCounterSummaryDef).1,
          (ensure s.families.subscribeTimeCounterHistogram subscribeTimeCounterHistogramDef).1 ] =
      Except.ok s'.registry ∧
    s'.families = { s.families with
      subscribeOpsCounter :=
        some (ensure s.families.subscribeOpsCounter subscribeOpsCounterDef).1
      subscribeTimeCounterSummary :=
        some (ensure s.families.subscribeTimeCounterSummary subscribeTimeCounterSummaryDef).1
      subscribeTimeCounterHistogram :=
        some (ensure s.families.subscribeTimeCounterHistogram subscribeTimeCounterHistogramDef).1 } := by
  simp only [registerSubscribeMetrics] at h
  cases hrc : registerCollectors ctx s.registry
      [ (ensure s.families.subscribeOpsCounter subscribeOpsCounterDef).1,
        (ensure s.families.subscribeTimeCounterSummary subscribeTimeCounterSummaryDef).1,
        (ensure s.families.subscribeTimeCounterHistogram subscribeTimeCounterHistogramDef).1 ] with
  | error e =>
    rw [hrc] at h
    exact absurd h (by simp)
  | ok r2 =>
    rw [hrc] at h
    simp only [Except.ok.injEq, Prod.mk.injEq] at h
    obtain ⟨hstate, _⟩ := h
    subst hstate
    exact ⟨rfl, rfl⟩

/-- Updating the three client family slots with the values they already
hold leaves the Families record unchanged. -/
theorem Families.update_client_self (f : Families) (c1 c2 c3 : Collector)
    (h1 : f.clientOpsCounter = some c1)
    (h2 : f.clientTimeCounterSummary = some c2)
    (h3 : f.clientTimeCounterHistogram = some c3) :
    ({ f with clientOpsCounter := some c1
              clientTimeCounterSummary := some c2
              clientTimeCounterHistogram := some c3 } : Families) = f := by
  cases f
  simp_all

/-- On a state whose client globals are already constructed and registered,
registerClientMetrics is a no-op: it succeeds, constructs nothing and
returns the state unchanged. -/
theorem registerClientMetrics_already (ctx : GoContext) (s : GlobalState)
    (c1 c2 c3 : Collector)
    (h1 : s.families.clientOpsCounter = some c1)
    (h2 : s.families.clientTimeCounterSummary = some c2)
    (h3 : s.families.clientTimeCounterHistogram = some c3)
    (m1 : c1 ∈ s.registry) (m2 : c2 ∈ s.registry) (m3 : c3 ∈ s.registry) :
    registerClientMetrics ctx s = Except.ok (s, []) := by
  have hall : registerCollectors ctx s.registry [c1, c2, c3] =
      Except.ok s.registry := by
    refine registerCollectors_all_mem ctx [c1, c2, c3] s.registry ?_
    intro a ha
    rcases List.mem_cons.mp ha with rfl | ha2
    · exact m1
    rcases List.mem_cons.mp ha2 with rfl | ha3
    · exact m2
    rcases List.mem_cons.mp ha3 with rfl | ha4
    · exact m3
    · simp at ha4
  simp only [registerClientMetrics, h1, h2, h3, ensure]
  rw [hall]
  rw [Families.update_client_self s.families c1 c2 c3 h1 h2 h3]
  rfl

/-- A successful registerClientMetrics run makes a second run (under any
context) a no-op returning the same state with no constructions. -/
theorem registerClientMetrics_idem (ctx : GoContext) (s s' : GlobalState)
    (t : List String)
    (h : registerClientMetrics ctx s = Except.ok (s', t)) (ctx2 : GoContext) :
    registerClientMetrics ctx2 s' = Except.ok (s', []) := by
  obtain ⟨hrc, hfam⟩ := registerClientMetrics_spec ctx s s' t h
  have hm := registerCollectors_mem_out ctx
    [ (ensure s.families.clientOpsCounter clientOpsCounterDef).1,
      (ensure s.families.clientTimeCounterSummary clientTimeCounterSummaryDef).1,
      (ensure s.families.clientTimeCounterHistogram clientTimeCounterHistogramDef).1 ]
    s.registry s'.registry hrc
  exact registerClientMetrics_already ctx2 s'
    (ensure s.families.clientOpsCounter clientOpsCounterDef).1
    (ensure s.families.clientTimeCounterSummary clientTimeCounterSummaryDef).1
    (ensure s.families.clientTimeCounterHistogram clientTimeCounterHistogramDef).1
    (by rw [hfam]) (by rw [hfam]) (by rw [hfam])
    (hm _ (by simp)) (hm _ (by simp)) (hm _ (by simp))

/-- What a successful NewCallWrapper call did: it ran registerClientMetrics
under the resolved options' context, and the returned decorator builds a
wrapper capturing those options and the wrapped CallFunc. -/
theorem NewCallWrapper_spec (opts : List Opt) (s s' : GlobalState)
    (k : CallFunc → wrapper) (h : NewCallWrapper opts s = Except.ok (s', k)) :
    (∃ t, registerClientMetrics (newOptions opts).Context s = Except.ok (s', t)) ∧
    k = fun fn =>
      { options := newOptions opts, callFunc := fn, client := default } := by
  simp only [NewCallWrapper] at h
  cases hrc : registerClientMetrics (newOptions opts).Context s with
  | error e =>
    rw [hrc] at h
    exact absurd h (by simp)
  | ok p =>
    obtain ⟨sA, tA⟩ := p
    rw [hrc] at h
    simp only [Except.ok.injEq, Prod.mk.injEq] at h
    obtain ⟨hs, hk⟩ := h
    subst hs
    exact ⟨⟨tA, rfl⟩, hk.symm⟩

/-- What a successful NewClientWrapper call did: it ran
registerClientMetrics and then registerPublishMetrics under the resolved
options' context, and the returned decorator builds a wrapper capturing
those options and the wrapped Client. -/
theorem NewClientWrapper_spec (opts : List Opt) (s s' : GlobalState)
    (k : Client → wrapper) (h : NewClientWrapper opts s = Except.ok (s', k)) :
    (∃ s1 t1 t2, registerClientMetrics (newOptions opts).Context s = Except.ok (s1, t1) ∧
      registerPublishMetrics (newOptions opts).Context s1 = Except.ok (s', t2)) ∧
    k = fun c =>
      { options := newOptions opts, callFunc := default, client := c } := by
  simp only [NewClientWrapper] at h
  split at h
  · exact absurd h (by simp)
  rename_i sA tA heq1
  split at h
  · exact absurd h (by simp)
  rename_i sB tB heq2
  simp only [Except.ok.injEq, Prod.mk.injEq] at h
  obtain ⟨hs, hk⟩ := h
  subst hs
  exact ⟨⟨sA, tA, tB, heq1, heq2⟩, hk.symm⟩

/-- What a successful NewHandlerWrapper call did. -/
theorem NewHandlerWrapper_spec (opts : List Opt) (s s' : GlobalState)
    (w : wrapper) (h : NewHandlerWrapper opts s = Except.ok (s', w)) :
    (∃ t, registerServerMetrics (newOptions opts).Context s = Except.ok (s', t)) ∧
    w = { options := newOptions opts, callFunc := default, client := default } := by
  simp only [NewHandlerWrapper] at h
  cases hrc : registerServerMetrics (newOptions opts).Context s with
  | error e =>
    rw [hrc] at h
    exact absurd h (by simp)
  | ok p =>
    obtain ⟨sA, tA⟩ := p
    rw [hrc] at h
    simp only [Except.ok.injEq, Prod.mk.injEq] at h
    obtain ⟨hs, hk⟩ := h
    subst hs
    exact ⟨⟨tA, rfl⟩, hk.symm⟩

/-- What a successful NewSubscriberWrapper call did. -/
theorem NewSubscriberWrapper_spec (opts : List Opt) (s s' : GlobalState)
    (w : wrapper) (h : NewSubscriberWrapper opts s = Except.ok (s', w)) :
    (∃ t, registerSubscribeMetrics (newOptions opts).Context s = Except.ok (s', t)) ∧
    w = { options := newOptions opts, callFunc := default, client := default } := by
  simp only [NewSubscriberWrapper] at h
  cases hrc : registerSubscribeMetrics (newOptions opts).Context s with
  | error e =>
    rw [hrc] at h
    exact absurd h (by simp)
  | ok p =>
    obtain ⟨sA, tA⟩ := p
    rw [hrc] at h
    simp only [Except.ok.injEq, Prod.mk.injEq] at h
    obtain ⟨hs, hk⟩ := h
    subst hs
    exact ⟨⟨tA, rfl⟩, hk.symm⟩

/-- The client latency summary and histogram are distinct families. -/
theorem clientLatencyNamesNe :
    clientTimeCounterSummaryDef.name ≠ clientTimeCounterHistogramDef.name := by decide

/-- The server latency summary and histogram are distinct families. -/
theorem serverLatencyNamesNe :
    serverTimeCounterSummaryDef.name ≠ serverTimeCounterHistogramDef.name := by decide

/-- The publish latency summary and histogram are distinct families. -/
theorem publishLatencyNamesNe :
    publishTimeCounterSummaryDef.name ≠ publishTimeCounterHistogramDef.name := by decide

/-- The subscribe latency summary and histogram are distinct families. -/
theorem subscribeLatencyNamesNe :
    subscribeTimeCounterSummaryDef.name ≠ subscribeTimeCounterHistogramDef.name := by decide

/-- Sample identity used to instantiate the decorator theorems. -/
def sampleOptions : Options :=
  { Name := "svc", Version := "v1", ID := "i1", Context := GoContext.background }

/-- Sample wrapped client whose Call fails and whose Stream and Publish
succeed. -/
def sampleClient : Client :=
  { Call := fun _ _ _ _ => some "boom"
    Stream := fun _ _ _ => (some 7, none)
    Publish := fun _ _ _ => none }

/-- Sample decorated wrapper. -/
def sampleWrapper : wrapper :=
  { options := sampleOptions
    callFunc := fun _ _ _ _ _ => none
    client := sampleClient }

/-- Sample outbound request. -/
def sampleReq : Request := { Service := "Greeter", Endpoint := "Hello" }

/-- C1: for every wrapped operation (Call, Stream, Publish, CallFunc,
handler, subscriber) and every input, the decorated operation returns
exactly the result and error the wrapped operation returns on that input:
decoration never alters the wrapped call's observable result. -/
theorem c1_decoration_pass_through :
    (∀ (w : wrapper) (ctx : GoContext) (req : Request) (rsp : Rsp)
        (opts : List CallOption) (t : ℚ),
      (w.Call ctx req rsp opts t).1 = w.client.Call ctx req rsp opts) ∧
    (∀ (w : wrapper) (ctx : GoContext) (req : Request)
        (opts : List CallOption) (t : ℚ),
      (w.Stream ctx req opts t).1 = w.client.Stream ctx req opts) ∧
    (∀ (w : wrapper) (ctx : GoContext) (p : Message)
        (opts : List PublishOption) (t : ℚ),
      (w.Publish ctx p opts t).1 = w.client.Publish ctx p opts) ∧
    (∀ (w : wrapper) (ctx : GoContext) (addr : String) (req : Request)
        (rsp : Rsp) (opts : CallOptions) (t : ℚ),
      (w.CallFunc ctx addr req rsp opts t).1 = w.callFunc ctx addr req rsp opts) ∧
    (∀ (w : wrapper) (fn : HandlerFunc) (ctx : GoContext) (req : ServerRequest)
        (rsp : Rsp) (t : ℚ),
      (w.HandlerFunc fn ctx req rsp t).1 = fn ctx req rsp) ∧
    (∀ (w : wrapper) (fn : SubscriberFunc) (ctx : GoContext)
        (msg : ServerMessage) (t : ℚ),
      (w.SubscriberFunc fn ctx msg t).1 = fn ctx msg) := by
  refine ⟨?_, ?_, ?_, ?_, ?_, ?_⟩ <;> intros <;> rfl

/-- C1 witness at concrete inputs: the decorated Call of the sample wrapper
returns exactly the error its wrapped client returns. -/
theorem c1_witness :
    (sampleWrapper.Call GoContext.background sampleReq 0 [] (1 / 100)).1 =
      some "boom" :=
  (c1_decoration_pass_through.1 sampleWrapper GoContext.background sampleReq
    0 [] (1 / 100)).trans rfl

/-- C2: every invocation of a decorated call shape increments the group's
ops counter exactly once, with status label success exactly when the
wrapped call returned no error, at labels (name, version, id, endpoint,
status). All six decorated shapes (the five wrapper shapes plus the CallFunc
path, which shares the client group) are covered. -/
theorem c2_ops_counter_exactly_once :
    (∀ (w : wrapper) (ctx : GoContext) (req : Request) (rsp : Rsp)
        (opts : List CallOption) (t : ℚ),
      incEvents (w.Call ctx req rsp opts t).2 =
        [MetricEvent.inc clientOpsCounterDef.name
          [w.options.Name, w.options.Version, w.options.ID,
            req.Service ++ "." ++ req.Endpoint,
            statusLabel (w.client.Call ctx req rsp opts)]]) ∧
    (∀ (w : wrapper) (ctx : GoContext) (req : Request)
        (opts : List CallOption) (t : ℚ),
      incEvents (w.Stream ctx req opts t).2 =
        [MetricEvent.inc clientOpsCounterDef.name
          [w.options.Name, w.options.Version, w.options.ID,
            req.Service ++ "." ++ req.Endpoint,
            statusLabel (w.client.Stream ctx req opts).2]]) ∧
    (∀ (w : wrapper) (ctx : GoContext) (p : Message)
        (opts : List PublishOption) (t : ℚ),
      incEvents (w.Publish ctx p opts t).2 =
        [MetricEvent.inc publishOpsCounterDef.name
          [w.options.Name, w.options.Version, w.options.ID, p.Topic,
            statusLabel (w.client.Publish ctx p opts)]]) ∧
    (∀ (w : wrapper) (ctx : GoContext) (addr : String) (req : Request)
        (rsp : Rsp) (opts : CallOptions) (t : ℚ),
      incEvents (w.CallFunc ctx addr req rsp opts t).2 =
        [MetricEvent.inc clientOpsCounterDef.name
          [w.options.Name, w.options.Version, w.options.ID,
            req.Service ++ "." ++ req.Endpoint,
            statusLabel (w.callFunc ctx addr req rsp opts)]]) ∧
    (∀ (w : wrapper) (fn : HandlerFunc) (ctx : GoContext) (req : ServerRequest)
        (rsp : Rsp) (t : ℚ),
      incEvents (w.HandlerFunc fn ctx req rsp t).2 =
        [MetricEvent.inc serverOpsCounterDef.name
          [w.options.Name, w.options.Version, w.options.ID, req.Endpoint,
            statusLabel (fn ctx req rsp)]]) ∧
    (∀ (w : wrapper) (fn : SubscriberFunc) (ctx : GoContext)
        (msg : ServerMessage) (t : ℚ),
      incEvents (w.SubscriberFunc fn ctx msg t).2 =
        [MetricEvent.inc subscribeOpsCounterDef.name
          [w.options.Name, w.options.Version, w.options.ID, msg.Topic,
            statusLabel (fn ctx msg)]]) := by
  refine ⟨?_, ?_, ?_, ?_, ?_, ?_⟩
  · intro w ctx req rsp opts t
    cases h : w.client.Call ctx req rsp opts <;>
      simp [wrapper.Call, incEvents, statusLabel, h]
  · intro w ctx req opts t
    cases h : (w.client.Stream ctx req opts).2 <;>
      simp [wrapper.Stream, incEvents, statusLabel, h]
  · intro w ctx p opts t
    cases h : w.client.Publish ctx p opts <;>
      simp [wrapper.Publish, incEvents, statusLabel, h]
  · intro w ctx addr req rsp opts t
    cases h : w.callFunc ctx addr req rsp opts <;>
      simp [wrapper.CallFunc, incEvents, statusLabel, h]
  · intro w fn ctx req rsp t
    cases h : fn ctx req rsp <;>
      simp [wrapper.HandlerFunc, incEvents, statusLabel, h]
  · intro w fn ctx msg t
    cases h : fn ctx msg <;>
      simp [wrapper.SubscriberFunc, incEvents, statusLabel, h]

/-- C2 witness at concrete inputs: one failure increment for the sample
wrapper's failing Call. -/
theorem c2_witness :
    incEvents (sampleWrapper.Call GoContext.background sampleReq 0 [] 1).2 =
      [MetricEvent.inc clientOpsCounterDef.name
        ["svc", "v1", "i1", "Greeter.Hello", "failure"]] := by
  rw [c2_ops_counter_exactly_once.1 sampleWrapper GoContext.background sampleReq 0 [] 1]
  rfl

/-- C3: every invocation of a decorated call shape records exactly one
observation into the group's microseconds summary and exactly one into the
group's seconds histogram, at label tuple (name, version, id, endpoint)
without a status label, regardless of the wrapped call's outcome (the
statement quantifies over all wrapped operations, failing ones included). -/
theorem c3_latency_observed_exactly_once :
    (∀ (w : wrapper) (ctx : GoContext) (req : Request) (rsp : Rsp)
        (opts : List CallOption) (t : ℚ),
      observesWithLabels clientTimeCounterSummaryDef.name (w.Call ctx req rsp opts t).2 =
        [[w.options.Name, w.options.Version, w.options.ID,
          req.Service ++ "." ++ req.Endpoint]] ∧
      observesWithLabels clientTimeCounterHistogramDef.name (w.Call ctx req rsp opts t).2 =
        [[w.options.Name, w.options.Version, w.options.ID,
          req.Service ++ "." ++ req.Endpoint]]) ∧
    (∀ (w : wrapper) (ctx : GoContext) (req : Request)
        (opts : List CallOption) (t : ℚ),
      observesWithLabels clientTimeCounterSummaryDef.name (w.Stream ctx req opts t).2 =
        [[w.options.Name, w.options.Version, w.options.ID,
          req.Service ++ "." ++ req.Endpoint]] ∧
      observesWithLabels clientTimeCounterHistogramDef.name (w.Stream ctx req opts t).2 =
        [[w.options.Name, w.options.Version, w.options.ID,
          req.Service ++ "." ++ req.Endpoint]]) ∧
    (∀ (w : wrapper) (ctx : GoContext) (p : Message)
        (opts : List PublishOption) (t : ℚ),
      observesWithLabels publishTimeCounterSummaryDef.name (w.Publish ctx p opts t).2 =
        [[w.options.Name, w.options.Version, w.options.ID, p.Topic]] ∧
      observesWithLabels publishTimeCounterHistogramDef.name (w.Publish ctx p opts t).2 =
        [[w.options.Name, w.options.Version, w.options.ID, p.Topic]]) ∧
    (∀ (w : wrapper) (ctx : GoContext) (addr : String) (req : Request)
        (rsp : Rsp) (opts : CallOptions) (t : ℚ),
      observesWithLabels clientTimeCounterSummaryDef.name (w.CallFunc ctx addr req rsp opts t).2 =
        [[w.options.Name, w.options.Version, w.options.ID,
          req.Service ++ "." ++ req.Endpoint]] ∧
      observesWithLabels clientTimeCounterHistogramDef.name (w.CallFunc ctx addr req rsp opts t).2 =
        [[w.options.Name, w.options.Version, w.options.ID,
          req.Service ++ "." ++ req.Endpoint]]) ∧
    (∀ (w : wrapper) (fn : HandlerFunc) (ctx : GoContext) (req : ServerRequest)
        (rsp : Rsp) (t : ℚ),
      observesWithLabels serverTimeCounterSummaryDef.name (w.HandlerFunc fn ctx req rsp t).2 =
        [[w.options.Name, w.options.Version, w.options.ID, req.Endpoint]] ∧
      observesWithLabels serverTimeCounterHistogramDef.name (w.HandlerFunc fn ctx req rsp t).2 =
        [[w.options.Name, w.options.Version, w.options.ID, req.Endpoint]]) ∧
    (∀ (w : wrapper) (fn : SubscriberFunc) (ctx : GoContext)
        (msg : ServerMessage) (t : ℚ),
      observesWithLabels subscribeTimeCounterSummaryDef.name (w.SubscriberFunc fn ctx msg t).2 =
        [[w.options.Name, w.options.Version, w.options.ID, msg.Topic]] ∧
      observesWithLabels subscribeTimeCounterHistogramDef.name (w.SubscriberFunc fn ctx msg t).2 =
        [[w.options.Name, w.options.Version, w.options.ID, msg.Topic]]) := by
  refine ⟨?_, ?_, ?_, ?_, ?_, ?_⟩
  · intro w ctx req rsp opts t
    cases h : w.client.Call ctx req rsp opts <;>
      simp [wrapper.Call, observesWithLabels, h,
        clientLatencyNamesNe, Ne.symm clientLatencyNamesNe]
  · intro w ctx req opts t
    cases h : (w.client.Stream ctx req opts).2 <;>
      simp [wrapper.Stream, observesWithLabels, h,
        clientLatencyNamesNe, Ne.symm clientLatencyNamesNe]
  · intro w ctx p opts t
    cases h : w.client.Publish ctx p opts <;>
      simp [wrapper.Publish, observesWithLabels, h,
        publishLatencyNamesNe, Ne.symm publishLatencyNamesNe]
  · intro w ctx addr req rsp opts t
    cases h : w.callFunc ctx addr req rsp opts <;>
      simp [wrapper.CallFunc, observesWithLabels, h,
        clientLatencyNamesNe, Ne.symm clientLatencyNamesNe]
  · intro w fn ctx req rsp t
    cases h : fn ctx req rsp <;>
      simp [wrapper.HandlerFunc, observesWithLabels, h,
        serverLatencyNamesNe, Ne.symm serverLatencyNamesNe]
  · intro w fn ctx msg t
    cases h : fn ctx msg <;>
      simp [wrapper.SubscriberFunc, observesWithLabels, h,
        subscribeLatencyNamesNe, Ne.symm subscribeLatencyNamesNe]

/-- C3 witness at concrete inputs: exactly one summary and one histogram
observation, at the four-label tuple, for the sample wrapper's failing
Call. -/
theorem c3_witness :
    observesWithLabels clientTimeCounterSummaryDef.name
        (sampleWrapper.Call GoContext.background sampleReq 0 [] 1).2 =
      [["svc", "v1", "i1", "Greeter.Hello"]] ∧
    observesWithLabels clientTimeCounterHistogramDef.name
        (sampleWrapper.Call GoContext.background sampleReq 0 [] 1).2 =
      [["svc", "v1", "i1", "Greeter.Hello"]] := by
  have h := c3_latency_observed_exactly_once.1 sampleWrapper
    GoContext.background sampleReq 0 [] 1
  exact ⟨h.1.trans rfl, h.2.trans rfl⟩

/-- C4: per invocation, the value observed in the latency summary equals
the value observed in the latency histogram multiplied by 1000000 (the
summary gets elapsed seconds scaled to microseconds, the histogram the
seconds value itself; float64 arithmetic is modelled exactly on rationals). -/
theorem c4_summary_is_histogram_times_1e6 :
    (∀ (w : wrapper) (ctx : GoContext) (req : Request) (rsp : Rsp)
        (opts : List CallOption) (t : ℚ),
      observeValues clientTimeCounterSummaryDef.name (w.Call ctx req rsp opts t).2 =
        (observeValues clientTimeCounterHistogramDef.name
          (w.Call ctx req rsp opts t).2).map (fun v => v * 1000000)) ∧
    (∀ (w : wrapper) (ctx : GoContext) (req : Request)
        (opts : List CallOption) (t : ℚ),
      observeValues clientTimeCounterSummaryDef.name (w.Stream ctx req opts t).2 =
        (observeValues clientTimeCounterHistogramDef.name
          (w.Stream ctx req opts t).2).map (fun v => v * 1000000)) ∧
    (∀ (w : wrapper) (ctx : GoContext) (p : Message)
        (opts : List PublishOption) (t : ℚ),
      observeValues publishTimeCounterSummaryDef.name (w.Publish ctx p opts t).2 =
        (observeValues publishTimeCounterHistogramDef.name
          (w.Publish ctx p opts t).2).map (fun v => v * 1000000)) ∧
    (∀ (w : wrapper) (ctx : GoContext) (addr : String) (req : Request)
        (rsp : Rsp) (opts : CallOptions) (t : ℚ),
      observeValues clientTimeCounterSummaryDef.name (w.CallFunc ctx addr req rsp opts t).2 =
        (observeValues clientTimeCounterHistogramDef.name
          (w.CallFunc ctx addr req rsp opts t).2).map (fun v => v * 1000000)) ∧
    (∀ (w : wrapper) (fn : HandlerFunc) (ctx : GoContext) (req : ServerRequest)
        (rsp : Rsp) (t : ℚ),
      observeValues serverTimeCounterSummaryDef.name (w.HandlerFunc fn ctx req rsp t).2 =
        (observeValues serverTimeCounterHistogramDef.name
          (w.HandlerFunc fn ctx req rsp t).2).map (fun v => v * 1000000)) ∧
    (∀ (w : wrapper) (fn : SubscriberFunc) (ctx : GoContext)
        (msg : ServerMessage) (t : ℚ),
      observeValues subscribeTimeCounterSummaryDef.name (w.SubscriberFunc fn ctx msg t).2 =
        (observeValues subscribeTimeCounterHistogramDef.name
          (w.SubscriberFunc fn ctx msg t).2).map (fun v => v * 1000000)) := by
  refine ⟨?_, ?_, ?_, ?_, ?_, ?_⟩
  · intro w ctx req rsp opts t
    cases h : w.client.Call ctx req rsp opts <;>
      simp [wrapper.Call, observeValues, h,
        clientLatencyNamesNe, Ne.symm clientLatencyNamesNe]
  · intro w ctx req opts t
    cases h : (w.client.Stream ctx req opts).2 <;>
      simp [wrapper.Stream, observeValues, h,
        clientLatencyNamesNe, Ne.symm clientLatencyNamesNe]
  · intro w ctx p opts t
    cases h : w.client.Publish ctx p opts <;>
      simp [wrapper.Publish, observeValues, h,
        publishLatencyNamesNe, Ne.symm publishLatencyNamesNe]
  · intro w ctx addr req rsp opts t
    cases h : w.callFunc ctx addr req rsp opts <;>
      simp [wrapper.CallFunc, observeValues, h,
        clientLatencyNamesNe, Ne.symm clientLatencyNamesNe]
  · intro w fn ctx req rsp t
    cases h : fn ctx req rsp <;>
      simp [wrapper.HandlerFunc, observeValues, h,
        serverLatencyNamesNe, Ne.symm serverLatencyNamesNe]
  · intro w fn ctx msg t
    cases h : fn ctx msg <;>
      simp [wrapper.SubscriberFunc, observeValues, h,
        subscribeLatencyNamesNe, Ne.symm subscribeLatencyNamesNe]

/-- C4 witness at concrete inputs: for a 1/100-second call, the summary
observes 10000 microseconds and the histogram 1/100 seconds. -/
theorem c4_witness :
    observeValues clientTimeCounterSummaryDef.name
        (sampleWrapper.Call GoContext.background sampleReq 0 [] (1 / 100)).2 =
      (observeValues clientTimeCounterHistogramDef.name
        (sampleWrapper.Call GoContext.background sampleReq 0 [] (1 / 100)).2).map
          (fun v => v * 1000000) :=
  c4_summary_is_histogram_times_1e6.1 sampleWrapper GoContext.background
    sampleReq 0 [] (1 / 100)

/-- C5: in the registration loop, an AlreadyRegisteredError (registering a
collector already present) is treated as success — the loop continues with
the remaining collectors and the registry is unchanged; any other
registration error (here: a name collision with a different collector) is
fatal immediately, modelled as Except.error, the process-termination path
of logger.Fatal. Registration errors are never returned to the caller: the
only outcomes are normal completion and process termination. -/
theorem c5_registration_error_handling :
    (∀ (ctx : GoContext) (r : List Collector) (c : Collector)
        (rest : List Collector),
      c ∈ r →
      registerCollectors ctx r (c :: rest) = registerCollectors ctx r rest) ∧
    (∀ (ctx : GoContext) (r : List Collector) (c : Collector)
        (rest : List Collector),
      c ∉ r → (∃ c2 ∈ r, c2.name = c.name) →
      registerCollectors ctx r (c :: rest) =
        Except.error "duplicate metrics collector registration attempted") := by
  constructor
  · exact fun ctx r c rest h => registerCollectors_skip ctx r c rest h
  · intro ctx r c rest hc hn
    simp [registerCollectors, Register, hc, hn]

/-- A collector sharing the client ops counter's name but differing in its
help string: registering it after the original is a non-AlreadyRegistered
error. -/
def clientVariantDef : Collector := { clientOpsCounterDef with help := "other" }

/-- C5 witness at concrete inputs: re-registering the client ops counter is
skipped; registering a same-name different collector is fatal. -/
theorem c5_witness :
    registerCollectors GoContext.background [clientOpsCounterDef]
        [clientOpsCounterDef] =
      registerCollectors GoContext.background [clientOpsCounterDef] [] ∧
    registerCollectors GoContext.background [clientOpsCounterDef]
        [clientVariantDef] =
      Except.error "duplicate metrics collector registration attempted" :=
  ⟨c5_registration_error_handling.1 GoContext.background [clientOpsCounterDef]
      clientOpsCounterDef [] (List.mem_singleton.mpr rfl),
    c5_registration_error_handling.2 GoContext.background [clientOpsCounterDef]
      clientVariantDef [] (by decide) (by decide)⟩

/-- C6: metric families are registered at wrapper construction time (a
successful NewCallWrapper leaves the client family globals constructed),
and registration is idempotent: running registerClientMetrics a second time
returns the same state having constructed nothing, and constructing a
second wrapper of the group leaves the global state unchanged. That
registration cannot happen on first invocation is structural: the decorated
calls neither read nor write the registration state. -/
theorem c6_registration_at_construction_and_idempotent :
    (∀ (opts : List Opt) (s s' : GlobalState) (k : CallFunc → wrapper),
      NewCallWrapper opts s = Except.ok (s', k) →
      s'.families.clientOpsCounter.isSome = true ∧
      s'.families.clientTimeCounterSummary.isSome = true ∧
      s'.families.clientTimeCounterHistogram.isSome = true) ∧
    (∀ (ctx : GoContext) (s s' : GlobalState) (t : List String),
      registerClientMetrics ctx s = Except.ok (s', t) →
      ∀ ctx2 : GoContext, registerClientMetrics ctx2 s' = Except.ok (s', [])) ∧
    (∀ (opts : List Opt) (s s' : GlobalState) (k : CallFunc → wrapper),
      NewCallWrapper opts s = Except.ok (s', k) →
      ∀ opts2 : List Opt, ∃ k2, NewCallWrapper opts2 s' = Except.ok (s', k2)) := by
  refine ⟨?_, ?_, ?_⟩
  · intro opts s s' k h
    obtain ⟨⟨t, hreg⟩, _⟩ := NewCallWrapper_spec opts s s' k h
    obtain ⟨_, hfam⟩ := registerClientMetrics_spec _ s s' t hreg
    refine ⟨?_, ?_, ?_⟩ <;> (rw [hfam]; rfl)
  · intro ctx s s' t hreg ctx2
    exact registerClientMetrics_idem ctx s s' t hreg ctx2
  · intro opts s s' k h opts2
    obtain ⟨⟨t, hreg⟩, _⟩ := NewCallWrapper_spec opts s s' k h
    refine ⟨fun fn =>
      { options := newOptions opts2, callFunc := fn, client := default }, ?_⟩
    simp only [NewCallWrapper]
    rw [registerClientMetrics_idem _ s s' t hreg (newOptions opts2).Context]

/-- C6 witness at concrete inputs: after the first registration from the
initial state, a second registerClientMetrics run returns the same state
and constructs nothing. -/
theorem c6_witness :
    registerClientMetrics GoContext.background clientState1 =
      Except.ok (clientState1, []) :=
  c6_registration_at_construction_and_idempotent.2.1 GoContext.background
    emptyState clientState1
    [clientOpsCounterDef.name, clientTimeCounterSummaryDef.name,
      clientTimeCounterHistogramDef.name] rfl GoContext.background

/-- C7 counterexample: the registration function is not double-checked
locking. Its step sequence as written begins by taking the lock and
performs a single null check per family slot under the lock; the spec's
double-checked sequence begins with a null check outside the lock. The two
step sequences differ. -/
theorem c7_counterexample :
    registerServerMetricsLockSteps ≠ doubleCheckedLockingSteps ∧
    registerServerMetricsLockSteps.head? = some LockStep.lock ∧
    doubleCheckedLockingSteps.head? = some LockStep.checkNull := by
  decide

/-- C7 (amended): each registration call holds the shared mutex for its
whole body (lock, check-null, construct, register, unlock — a single null
check under the lock, not double-checked locking), so concurrent wrapper
constructions of the same group serialize; every serialized sequence of
n+1 registration calls from process start succeeds and constructs exactly
one metric family object per family name — the first call constructs all
three server families, every later call constructs none, and the global
state stays that of the first call. -/
theorem c7_single_construction (n : Nat) :
    iterateRegisterServer (n + 1) emptyState =
      Except.ok (serverState1,
        [serverOpsCounterDef.name, serverTimeCounterSummaryDef.name,
          serverTimeCounterHistogramDef.name]) := by
  have hfirst : registerServerMetrics GoContext.background emptyState =
      Except.ok (serverState1,
        [serverOpsCounterDef.name, serverTimeCounterSummaryDef.name,
          serverTimeCounterHistogramDef.name]) := rfl
  have hfix : registerServerMetrics GoContext.background serverState1 =
      Except.ok (serverState1, []) := rfl
  have hiter : ∀ m, iterateRegisterServer m serverState1 =
      Except.ok (serverState1, []) := by
    intro m
    induction m with
    | zero => rfl
    | succ p ih =>
      simp [iterateRegisterServer, hfix, ih]
  simp [iterateRegisterServer, hfirst, hiter n]

/-- C7 witness at a concrete schedule: three serialized registration calls
construct each server family exactly once. -/
theorem c7_witness :
    iterateRegisterServer 3 emptyState =
      Except.ok (serverState1,
        [serverOpsCounterDef.name, serverTimeCounterSummaryDef.name,
          serverTimeCounterHistogramDef.name]) :=
  c7_single_construction 2

/-- C8: every metric event of an invocation carries the endpoint label
(position 3) derived per group: client Call, Stream and CallFunc use
service.endpoint of the outbound request, the handler uses the inbound
request's endpoint name, Publish the outgoing message's topic, and the
subscriber the incoming message's topic. -/
theorem c8_endpoint_label_derivation :
    (∀ (w : wrapper) (ctx : GoContext) (req : Request) (rsp : Rsp)
        (opts : List CallOption) (t : ℚ),
      ((w.Call ctx req rsp opts t).2).map eventEndpoint =
        [some (req.Service ++ "." ++ req.Endpoint),
          some (req.Service ++ "." ++ req.Endpoint),
          some (req.Service ++ "." ++ req.Endpoint)]) ∧
    (∀ (w : wrapper) (ctx : GoContext) (req : Request)
        (opts : List CallOption) (t : ℚ),
      ((w.Stream ctx req opts t).2).map eventEndpoint =
        [some (req.Service ++ "." ++ req.Endpoint),
          some (req.Service ++ "." ++ req.Endpoint),
          some (req.Service ++ "." ++ req.Endpoint)]) ∧
    (∀ (w : wrapper) (ctx : GoContext) (p : Message)
        (opts : List PublishOption) (t : ℚ),
      ((w.Publish ctx p opts t).2).map eventEndpoint =
        [some p.Topic, some p.Topic, some p.Topic]) ∧
    (∀ (w : wrapper) (ctx : GoContext) (addr : String) (req : Request)
        (rsp : Rsp) (opts : CallOptions) (t : ℚ),
      ((w.CallFunc ctx addr req rsp opts t).2).map eventEndpoint =
        [some (req.Service ++ "." ++ req.Endpoint),
          some (req.Service ++ "." ++ req.Endpoint),
          some (req.Service ++ "." ++ req.Endpoint)]) ∧
    (∀ (w : wrapper) (fn : HandlerFunc) (ctx : GoContext) (req : ServerRequest)
        (rsp : Rsp) (t : ℚ),
      ((w.HandlerFunc fn ctx req rsp t).2).map eventEndpoint =
        [some req.Endpoint, some req.Endpoint, some req.Endpoint]) ∧
    (∀ (w : wrapper) (fn : SubscriberFunc) (ctx : GoContext)
        (msg : ServerMessage) (t : ℚ),
      ((w.SubscriberFunc fn ctx msg t).2).map eventEndpoint =
        [some msg.Topic, some msg.Topic, some msg.Topic]) := by
  refine ⟨?_, ?_, ?_, ?_, ?_, ?_⟩
  · intro w ctx req rsp opts t
    cases h : w.client.Call ctx req rsp opts <;>
      simp [wrapper.Call, eventEndpoint, h]
  · intro w ctx req opts t
    cases h : (w.client.Stream ctx req opts).2 <;>
      simp [wrapper.Stream, eventEndpoint, h]
  · intro w ctx p opts t
    cases h : w.client.Publish ctx p opts <;>
      simp [wrapper.Publish, eventEndpoint, h]
  · intro w ctx addr req rsp opts t
    cases h : w.callFunc ctx addr req rsp opts <;>
      simp [wrapper.CallFunc, eventEndpoint, h]
  · intro w fn ctx req rsp t
    cases h : fn ctx req rsp <;>
      simp [wrapper.HandlerFunc, eventEndpoint, h]
  · intro w fn ctx msg t
    cases h : fn ctx msg <;>
      simp [wrapper.SubscriberFunc, eventEndpoint, h]

/-- C8 witness at concrete inputs: all three events of the sample Call
carry endpoint Greeter.Hello. -/
theorem c8_witness :
    ((sampleWrapper.Call GoContext.background sampleReq 0 [] 1).2).map
        eventEndpoint =
      [some "Greeter.Hello", some "Greeter.Hello", some "Greeter.Hello"] :=
  (c8_endpoint_label_derivation.1 sampleWrapper GoContext.background sampleReq
    0 [] 1).trans rfl

/-- C9: every wrapper constructor resolves its configuration from the
options: with no options the configuration has empty Name, Version and ID
and the background Context; each option sets exactly its named field; and
the resolved configuration is captured by value in the wrapper the returned
decorator builds. -/
theorem c9_options_defaults_and_capture :
    (newOptions [] =
      { Name := "", Version := "", ID := "", Context := GoContext.background }) ∧
    (∀ (ctx : GoContext) (o : Options), Context ctx o = { o with Context := ctx }) ∧
    (∀ (n : String) (o : Options), ServiceName n o = { o with Name := n }) ∧
    (∀ (v : String) (o : Options), ServiceVersion v o = { o with Version := v }) ∧
    (∀ (i : String) (o : Options), ServiceID i o = { o with ID := i }) ∧
    (∀ (opts : List Opt) (s s' : GlobalState) (k : Client → wrapper),
      NewClientWrapper opts s = Except.ok (s', k) →
      ∀ c, (k c).options = newOptions opts) ∧
    (∀ (opts : List Opt) (s s' : GlobalState) (k : CallFunc → wrapper),
      NewCallWrapper opts s = Except.ok (s', k) →
      ∀ fn, (k fn).options = newOptions opts) ∧
    (∀ (opts : List Opt) (s s' : GlobalState) (w : wrapper),
      NewHandlerWrapper opts s = Except.ok (s', w) →
      w.options = newOptions opts) ∧
    (∀ (opts : List Opt) (s s' : GlobalState) (w : wrapper),
      NewSubscriberWrapper opts s = Except.ok (s', w) →
      w.options = newOptions opts) := by
  refine ⟨rfl, fun _ _ => rfl, fun _ _ => rfl, fun _ _ => rfl, fun _ _ => rfl,
    ?_, ?_, ?_, ?_⟩
  · intro opts s s' k h c
    rw [(NewClientWrapper_spec opts s s' k h).2]
  · intro opts s s' k h fn
    rw [(NewCallWrapper_spec opts s s' k h).2]
  · intro opts s s' w h
    rw [(NewHandlerWrapper_spec opts s s' w h).2]
  · intro opts s s' w h
    rw [(NewSubscriberWrapper_spec opts s s' w h).2]

/-- C9 witness at concrete inputs: the handler wrapper constructed with
ServiceName svc from the initial state captures exactly those resolved
options. -/
theorem c9_witness :
    ({ options := newOptions [ServiceName "svc"], callFunc := default,
        client := default } : wrapper).options = newOptions [ServiceName "svc"] :=
  c9_options_defaults_and_capture.2.2.2.2.2.2.2.1 [ServiceName "svc"]
    emptyState serverState1
    { options := newOptions [ServiceName "svc"], callFunc := default,
      client := default } rfl

/-- C10: a successful NewClientWrapper leaves both the client-call and the
publish families constructed, while NewCallWrapper leaves every publish
family global exactly as it found it (registering only the client
families); concretely, from process start NewCallWrapper yields a state
whose registry lacks the publish ops counter and whose publish globals are
nil. -/
theorem c10_client_wrapper_registers_publish_families :
    (∀ (opts : List Opt) (s s' : GlobalState) (k : Client → wrapper),
      NewClientWrapper opts s = Except.ok (s', k) →
      s'.families.clientOpsCounter.isSome = true ∧
      s'.families.clientTimeCounterSummary.isSome = true ∧
      s'.families.clientTimeCounterHistogram.isSome = true ∧
      s'.families.publishOpsCounter.isSome = true ∧
      s'.families.publishTimeCounterSummary.isSome = true ∧
      s'.families.publishTimeCounterHistogram.isSome = true) ∧
    (∀ (opts : List Opt) (s s' : GlobalState) (k : CallFunc → wrapper),
      NewCallWrapper opts s = Except.ok (s', k) →
      s'.families.clientOpsCounter.isSome = true ∧
      s'.families.publishOpsCounter = s.families.publishOpsCounter ∧
      s'.families.publishTimeCounterSummary = s.families.publishTimeCounterSummary ∧
      s'.families.publishTimeCounterHistogram = s.families.publishTimeCounterHistogram) ∧
    (∃ k, NewCallWrapper [] emptyState = Except.ok (clientState1, k) ∧
      publishOpsCounterDef ∉ clientState1.registry ∧
      clientState1.families.publishOpsCounter = none) := by
  refine ⟨?_, ?_, ?_⟩
  · intro opts s s' k h
    obtain ⟨⟨s1, t1, t2, hc, hp⟩, _⟩ := NewClientWrapper_spec opts s s' k h
    obtain ⟨_, hfam1⟩ := registerClientMetrics_spec _ s s1 t1 hc
    obtain ⟨_, hfam2⟩ := registerPublishMetrics_spec _ s1 s' t2 hp
    refine ⟨?_, ?_, ?_, ?_, ?_, ?_⟩ <;> (rw [hfam2, hfam1]; rfl)
  · intro opts s s' k h
    obtain ⟨⟨t, hreg⟩, _⟩ := NewCallWrapper_spec opts s s' k h
    obtain ⟨_, hfam⟩ := registerClientMetrics_spec _ s s' t hreg
    refine ⟨?_, ?_, ?_, ?_⟩ <;> (rw [hfam]; try rfl)
  · exact ⟨fun fn =>
      { options := newOptions [], callFunc := fn, client := default },
      rfl, by decide, rfl⟩

/-- C10 witness at concrete inputs: from process start, NewCallWrapper
leaves the publish ops counter global untouched while the client ops
counter is constructed. -/
theorem c10_witness :
    clientState1.families.clientOpsCounter.isSome = true ∧
    clientState1.families.publishOpsCounter =
      emptyState.families.publishOpsCounter := by
  have h := c10_client_wrapper_registers_publish_families.2.1 [] emptyState
    clientState1
    (fun fn => { options := newOptions [], callFunc := fn, client := default })
    rfl
  exact ⟨h.1, h.2.1⟩
